import Mathlib

/-!
Shallow embedding of the mursal-mobile backend-fix scripts and the dispatch
spec they document.

Sources embedded from src/:
  - quick_backend_fix.py      : the `decline` action (full version, lines 15-55)
  - URGENT_BACKEND_FIX.py     : DeliveryViewSet.decline (lines 33-89),
                                the DeclinedDelivery model (lines 96-103),
                                available_orders (lines 107-126)
  - backend_decline_fix.py    : fix_decline_permission (lines 34-74)
  - debug_smart_assignment.py / comprehensive_order_test.py /
    test_location_service.py / quick_order_test.py : callers fixing the
    constants (restricted types = food/fast, limit 2, freshness 15 min,
    candidate filter available AND on_duty).

Components the claims need that live only in the backend (not under src/) are
modelled from the spec and carry a doc comment saying so.

Conventions: Django model instances become structures over Nat ids; a nullable
foreign key becomes `Option Nat`; status enumeration values become the string
literals the scripts use (`DeliveryStatus.ASSIGNED.value = "assigned"`, as
fixed by the literal query `status='assigned'` in debug_smart_assignment.py
that mirrors `status=DeliveryStatus.ASSIGNED.value` in quick_order_test.py).
-/

/-- A Delivery row: id, nullable assigned driver, lifecycle status. -/
structure Delivery where
  id : Nat
  driver : Option Nat
  status : String
deriving DecidableEq, Repr

/-- A DRF response, flattened: HTTP status code plus the JSON fields the two
decline actions emit (`message`, `error`, `delivery_id`, `status`). -/
structure Response where
  httpStatus : Nat
  message : Option String
  error : Option String
  delivery_id : Option Nat
  statusField : Option String
deriving DecidableEq, Repr

namespace QuickBackendFix

/-- The `decline` action of src/quick_backend_fix.py (lines 15-55).
Python falls off the end of the function (returning None) if no branch fires,
hence the `Option Response`; the branches in fact cover every case
(`decline_total` below). The state effect is the returned Delivery. -/
def decline (delivery : Delivery) (current_driver : Nat) :
    Option Response × Delivery :=
  -- if delivery.driver is not None and delivery.driver != current_driver:
  if delivery.driver.isSome && !(delivery.driver == some current_driver) then
    (some ⟨400, none,
        some "This delivery is already assigned to another driver.",
        none, none⟩,
     delivery)
  -- if delivery.driver is None:
  else if delivery.driver.isNone then
    (some ⟨200, some "Delivery declined successfully.", none,
        some delivery.id, some "declined"⟩,
     delivery)
  -- if delivery.driver == current_driver:
  else if delivery.driver == some current_driver then
    (some ⟨200, some "Delivery unassigned and declined.", none,
        some delivery.id, some "unassigned"⟩,
     { delivery with driver := none, status := "pending" })
  else
    (none, delivery)

theorem decline_total (d : Delivery) (c : Nat) : (decline d c).1 ≠ none := by
  unfold decline
  rcases h : d.driver with _ | v
  · simp [h]
  · by_cases hv : v = c <;> simp [h, hv]

end QuickBackendFix

namespace UrgentBackendFix

/-- DeclinedDelivery rows (src/URGENT_BACKEND_FIX.py lines 96-103): pairs
(delivery id, driver id); `unique_together` makes the pair a key. -/
abbrev DeclinedRows := List (Nat × Nat)

/-- Predicate `has_declined`: a DeclinedDelivery row exists for this (delivery, driver)
pair — the membership test `available_orders` performs via
`values_list('delivery_id')` + `exclude(id__in=...)`. -/
def has_declined (rows : DeclinedRows) (deliveryId driver : Nat) : Bool :=
  rows.contains (deliveryId, driver)

/-- The action `DeliveryViewSet.decline` of src/URGENT_BACKEND_FIX.py
(lines 33-89).
`if delivery.driver and ...` tests truthiness; a model instance is always
truthy, so it is `isSome`.  The DeclinedDelivery table is threaded through to
record the action's (absent) effect on it: the body never touches it
(the comment at lines 57-60 reads "Track decline for this driver (optional
- for filtering) ... For now, just return success").  Case 2 sets
`delivery.status = DeliveryStatus.ASSIGNED.value  # or PENDING`, i.e.
"assigned".  The try/except wrapper is vacuous here: no modelled operation
raises. -/
def decline (delivery : Delivery) (rows : DeclinedRows) (current_driver : Nat) :
    Option Response × Delivery × DeclinedRows :=
  -- if delivery.driver and delivery.driver != current_driver:
  if delivery.driver.isSome && !(delivery.driver == some current_driver) then
    (some ⟨400, none,
        some "This delivery is already assigned to another driver.",
        none, none⟩,
     delivery, rows)
  -- if delivery.driver is None:
  else if delivery.driver.isNone then
    (some ⟨200, some "Delivery declined successfully.", none,
        some delivery.id, some "declined"⟩,
     delivery, rows)
  -- if delivery.driver == current_driver:
  else if delivery.driver == some current_driver then
    (some ⟨200, some "Delivery unassigned and declined.", none,
        some delivery.id, some "unassigned"⟩,
     { delivery with driver := none, status := "assigned" }, rows)
  else
    (none, delivery, rows)

/-- The action `available_orders` of src/URGENT_BACKEND_FIX.py
(lines 107-126):
declined ids for this driver, then deliveries with `driver__isnull=True`,
`status=DeliveryStatus.ASSIGNED.value`, excluding the declined ids. -/
def available_orders (deliveries : List Delivery) (rows : DeclinedRows)
    (driver : Nat) : List Delivery :=
  let declined_ids := (rows.filter (fun r => r.2 == driver)).map (·.1)
  (deliveries.filter
      (fun d => d.driver.isNone && d.status == "assigned")).filter
    (fun d => !(declined_ids.contains d.id))

end UrgentBackendFix

namespace ClaimEngine

/-- Claim outcome (spec §7: success or ClaimConflictError). -/
inductive ClaimResult where
  | success
  | claimConflictError
deriving DecidableEq, Repr

/-- Modelled from the spec: the broadcast-claim engine is part of the Django
backend, absent from src/ (the scripts only exercise its HTTP surface).
Spec §5: "an atomic conditional transition at the storage boundary — a
compare-and-set on the Delivery's assigned-agent field, permitted only when
the current value is null."  `claim` is that compare-and-set on the
assigned-driver field. -/
def claim (assignedDriver : Option Nat) (agent : Nat) :
    ClaimResult × Option Nat :=
  match assignedDriver with
  | none => (ClaimResult.success, some agent)
  | some d => (ClaimResult.claimConflictError, some d)

/-- Modelled from the spec: N concurrent claim attempts, each executed as one
atomic compare-and-set, are equivalent to some serial order of the atomic
operations; `runClaims` folds one such serialization, collecting each
attempt's result. -/
def runClaims (assignedDriver : Option Nat) (agents : List Nat) :
    List ClaimResult × Option Nat :=
  match agents with
  | [] => ([], assignedDriver)
  | a :: rest =>
      let r := claim assignedDriver a
      let rs := runClaims r.2 rest
      (r.1 :: rs.1, rs.2)

/-- How many of the collected results are successes. -/
def successCount (rs : List ClaimResult) : Nat :=
  (rs.filter (fun r => r == ClaimResult.success)).length

theorem claim_some_fails (d : Nat) (a : Nat) :
    claim (some d) a = (ClaimResult.claimConflictError, some d) := rfl

theorem runClaims_some_no_success (d : Nat) (agents : List Nat) :
    successCount (runClaims (some d) agents).1 = 0 := by
  induction agents with
  | nil => rfl
  | cons a rest ih =>
      simp only [runClaims, claim, successCount] at ih ⊢
      rw [List.filter_cons_of_neg]
      · exact ih
      · decide

theorem runClaims_length (st : Option Nat) (agents : List Nat) :
    (runClaims st agents).1.length = agents.length := by
  induction agents generalizing st with
  | nil => rfl
  | cons a rest ih =>
      cases st <;> simp [runClaims, claim, ih]

end ClaimEngine

namespace SmartAssignment

/-- An order as the eligibility check sees it: type category and weight. -/
structure Ord where
  order_type : String
  weight : Nat
deriving DecidableEq, Repr

/-- Restricted (time-sensitive) type categories: src/debug_smart_assignment.py
line 174 classifies `order_type in ['food', 'fast']`. -/
def isRestricted (o : Ord) : Bool :=
  o.order_type == "food" || o.order_type == "fast"

/-- Orders of restricted type among an active-assignment set. -/
def restrictedCount (active : List Ord) : Nat :=
  (active.filter isRestricted).length

/-- Total carried weight of an active-assignment set. -/
def totalWeight (active : List Ord) : Nat :=
  (active.map Ord.weight).sum

/-- Modelled from the spec: `smart_assignment_service.can_accept_new_delivery`
lives in the backend (`delivery/smart_assignment.py`), absent from src/;
src/debug_smart_assignment.py lines 193-198 only call it and read the
`can_accept` / `reason` fields of its result.  Spec §4.3: restricted-type
capacity — at most `k` (default 2) concurrent restricted orders, checked
independently of (and here before) the weight check, each rejection carrying
a distinct reason. -/
def can_accept_new_delivery (k : Nat) (active : List Ord) (capacity : Nat)
    (o : Ord) : Bool × String :=
  if isRestricted o && decide (k ≤ restrictedCount active) then
    (false, "restricted-type capacity")
  else if decide (capacity < totalWeight active + o.weight) then
    (false, "over weight capacity")
  else
    (true, "ok")

/-- Modelled from the spec: reachable active-assignment sets of one agent —
starting empty, growing only by an accept the eligibility check permits
(spec §4.6: "an assigned agent must have been eligible at claim time"),
shrinking by decline/completion releases. -/
inductive Reachable (k : Nat) (capacity : Nat) : List Ord → Prop where
  | start : Reachable k capacity []
  | accept (active : List Ord) (o : Ord) :
      Reachable k capacity active →
      (can_accept_new_delivery k active capacity o).1 = true →
      Reachable k capacity (o :: active)
  | release (pre post : List Ord) (o : Ord) :
      Reachable k capacity (pre ++ o :: post) →
      Reachable k capacity (pre ++ post)

theorem restrictedCount_append (xs ys : List Ord) :
    restrictedCount (xs ++ ys) = restrictedCount xs + restrictedCount ys := by
  simp [restrictedCount, List.filter_append]

theorem restrictedCount_cons (o : Ord) (xs : List Ord) :
    restrictedCount (o :: xs) =
      (if isRestricted o then 1 else 0) + restrictedCount xs := by
  by_cases h : isRestricted o = true <;>
    simp [restrictedCount, List.filter_cons, h, Nat.add_comm]

theorem reachable_restricted_le (k capacity : Nat) (active : List Ord)
    (h : Reachable k capacity active) : restrictedCount active ≤ k := by
  induction h with
  | start => simp [restrictedCount]
  | accept active o _ hacc ih =>
      rw [restrictedCount_cons]
      by_cases hr : isRestricted o = true
      · have hlt : restrictedCount active < k := by
          by_contra hge
          push_neg at hge
          simp [can_accept_new_delivery, hr, hge] at hacc
        simp [hr]
        omega
      · simp [hr]
        exact ih
  | release pre post o _ ih =>
      rw [restrictedCount_append] at ih ⊢
      rw [restrictedCount_cons] at ih
      omega

end SmartAssignment

namespace AgentRegistry

/-- A driver as the candidate filter sees it (src/quick_order_test.py lines
166-170 and src/test_location_service.py lines 80-84): availability and duty
flags plus a nullable last-location-update timestamp, in minutes. -/
structure Agent where
  id : Nat
  is_available : Bool
  is_on_duty : Bool
  last_location_update : Option Nat
deriving DecidableEq, Repr

/-- The freshness test of src/test_location_service.py lines 80-84:
`last_location_update__gte = now - timedelta(minutes=window)`, i.e.
`now ≤ t + window`; a null timestamp fails the `__gte` lookup. -/
def locationFresh (now window : Nat) (a : Agent) : Bool :=
  match a.last_location_update with
  | none => false
  | some t => decide (now ≤ t + window)

/-- Modelled from the spec: `get_candidates()` of the AgentState Registry is
backend code absent from src/; src/quick_order_test.py lines 166-170 queries
`is_available=True, is_on_duty=True` and src/test_location_service.py lines
80-84 the 15-minute freshness window (spec §4.2: available AND on-duty AND
location timestamp within the freshness window, default 15 minutes; stale
agents excluded outright). -/
def get_candidates (agents : List Agent) (now : Nat) (window : Nat) :
    List Agent :=
  agents.filter (fun a => a.is_available && a.is_on_duty &&
    locationFresh now window a)

end AgentRegistry

namespace AssignEngine

/-- Modelled from the spec: `AssignmentEngine.assign` is backend code absent
from src/.  Spec §4.6: "assign(order) ... eligible candidates (Registry minus
Ledger) → Strategy"; spec §4.3 check 1 rejects any (agent, order) pair the
DeclineLedger holds, before any other check (`ok` stands for the remaining
capacity/weight/distance checks).  The strategy then selects among the
eligible candidates (here: the serialized candidate order's first, standing
for whichever eligible agent the strategy picks). -/
def assign (rows : UrgentBackendFix.DeclinedRows) (orderId : Nat)
    (candidates : List Nat) (ok : Nat → Bool) : Option Nat :=
  (candidates.filter
    (fun a => !(UrgentBackendFix.has_declined rows orderId a) && ok a)).head?

theorem assign_mem_filter (rows : UrgentBackendFix.DeclinedRows)
    (orderId : Nat) (candidates : List Nat) (ok : Nat → Bool) (a : Nat)
    (h : assign rows orderId candidates ok = some a) :
    UrgentBackendFix.has_declined rows orderId a = false := by
  unfold assign at h
  cases hf : List.filter
      (fun a => !(UrgentBackendFix.has_declined rows orderId a) && ok a)
      candidates with
  | nil => rw [hf] at h; simp at h
  | cons b l =>
      rw [hf] at h
      simp only [List.head?_cons, Option.some.injEq] at h
      subst h
      have hb : b ∈ List.filter
          (fun a => !(UrgentBackendFix.has_declined rows orderId a) && ok a)
          candidates := by
        rw [hf]; exact List.mem_cons_self b l
      have := (List.mem_filter.mp hb).2
      simp only [Bool.and_eq_true, Bool.not_eq_true'] at this
      exact this.1

end AssignEngine

namespace BackendDeclineFix

/-- Python's regex class `\s`: space, tab, newline, carriage return, vertical
tab (0x0b), form feed (0x0c). -/
def isPySpace (c : Char) : Bool :=
  c == ' ' || c == '\t' || c == '\n' || c == '\r' ||
  c == Char.ofNat 11 || c == Char.ofNat 12

/-- Match a literal token at the front; on success return the remainder. -/
def matchLit : List Char → List Char → Option (List Char)
  | [], cs => some cs
  | _ :: _, [] => none
  | t :: ts, c :: cs => if c == t then matchLit ts cs else none

/-- Maximal munch of `\s*`. -/
def skipWs : List Char → List Char
  | [] => []
  | c :: cs => if isPySpace c then skipWs cs else c :: cs

/-- Match `\s+` greedily; on success return the remainder. -/
def matchWs1 : List Char → Option (List Char)
  | [] => none
  | c :: cs => if isPySpace c then some (skipWs cs) else none

/-- The regex of src/backend_decline_fix.py line 40,
`if\s+delivery\.driver\s*!=\s*request\.user\.driver\s*:`, matched at the
front of the input.  Greedy whitespace matching loses no matches here: every
token that follows a whitespace class starts with a non-whitespace character
(`d`, `!`, `r`, `:`), so the maximal munch is the only viable split. -/
def matchPatternAt (cs : List Char) : Option (List Char) := do
  let cs ← matchLit "if".data cs
  let cs ← matchWs1 cs
  let cs ← matchLit "delivery.driver".data cs
  let cs := skipWs cs
  let cs ← matchLit "!=".data cs
  let cs := skipWs cs
  let cs ← matchLit "request.user.driver".data cs
  let cs := skipWs cs
  matchLit ":".data cs

/-- Whether `re.search` finds the pattern anywhere in the input. -/
def searchPattern : List Char → Bool
  | [] => false
  | c :: cs => (matchPatternAt (c :: cs)).isSome || searchPattern cs

/-- Replace every non-overlapping leftmost match of `try` by `repl`
(Python's `re.sub`).  `fuel` bounds the recursion; every accepted match consumes at
least one character, so `fuel = input length` never runs out (taking one more
step than needed is harmless: with fuel left and an empty input the result is
`[]` either way). -/
def substFuel (tryMatch : List Char → Option (List Char)) (repl : List Char) :
    Nat → List Char → List Char
  | 0, cs => cs
  | _ + 1, [] => []
  | fuel + 1, c :: cs =>
      match tryMatch (c :: cs) with
      | some rest => repl ++ substFuel tryMatch repl fuel rest
      | none => c :: substFuel tryMatch repl fuel cs

/-- The first `re.sub` of src/backend_decline_fix.py (lines 46-50): replace
each pattern match by the corrected guard. -/
def subPattern (cs : List Char) : List Char :=
  substFuel matchPatternAt
    "if delivery.driver is not None and delivery.driver != request.user.driver:".data
    cs.length cs

/-- The second `re.sub` (lines 53-57): replace the literal old error message
(the regex is that literal with its dot escaped) by the new one.  The quotes
are part of both pattern and replacement. -/
def subMessage (cs : List Char) : List Char :=
  substFuel (matchLit "\"You can only decline your own assigned deliveries.\"".data)
    "\"This delivery is already assigned to another driver.\"".data
    cs.length cs

/-- The full fixed content `fix_decline_permission` writes back (lines 46-57):
the guard substitution, then the message substitution. -/
def fixedContent (content : List Char) : List Char :=
  subMessage (subPattern content)

/-- One file write performed by the script, in program order. -/
structure FileWrite where
  path : String
  content : List Char
deriving DecidableEq

/-- The function `fix_decline_permission` of src/backend_decline_fix.py
(lines 34-74), as a pure map from the file's path and current content to the
returned Bool and the ordered list of file writes it performs.  When
`re.search` finds the pattern it computes both substitutions, writes the
backup (original content) at `path + ".backup"`, then writes the fixed
content at `path`, and returns True; otherwise it performs no write and
returns False.  The `print` calls have no modelled effect. -/
def fix_decline_permission (path : String) (content : List Char) :
    Bool × List FileWrite :=
  if searchPattern content then
    let fixed_content := fixedContent content
    (true, [⟨path ++ ".backup", content⟩, ⟨path, fixed_content⟩])
  else
    (false, [])

end BackendDeclineFix

namespace BackendDeclineFix

/-- Every character is Python whitespace. -/
def allWs (w : List Char) : Bool := w.all isPySpace

/-- The first character (if any) is not whitespace. -/
def headNotWs : List Char → Bool
  | [] => true
  | c :: _ => !(isPySpace c)

/-- The content contains, at some position, the text of the pattern
`if delivery.driver != request.user.driver:` up to whitespace: `if` followed
by at least one whitespace character, then the three literal tokens separated
by arbitrary whitespace.  This is the specification-side reading of the regex
at src/backend_decline_fix.py line 40. -/
def ContainsDeclineCheck (cs : List Char) : Prop :=
  ∃ pre w1 w2 w3 w4 rest : List Char,
    allWs w1 = true ∧ w1 ≠ [] ∧ allWs w2 = true ∧ allWs w3 = true ∧
    allWs w4 = true ∧
    cs = pre ++ ("if".data ++ w1 ++ "delivery.driver".data ++ w2 ++
         "!=".data ++ w3 ++ "request.user.driver".data ++ w4 ++ ":".data ++
         rest)

theorem matchLit_sound (ts : List Char) :
    ∀ cs rest : List Char, matchLit ts cs = some rest → cs = ts ++ rest := by
  induction ts with
  | nil =>
      intro cs rest h
      simp only [matchLit, Option.some.injEq] at h
      simpa using h
  | cons t ts ih =>
      intro cs rest h
      cases cs with
      | nil => simp [matchLit] at h
      | cons c cs =>
          simp only [matchLit] at h
          by_cases hc : c = t
          · subst hc
            simp only [beq_self_eq_true, if_true] at h
            simpa using ih cs rest h
          · simp [hc] at h

theorem matchLit_complete (ts rest : List Char) :
    matchLit ts (ts ++ rest) = some rest := by
  induction ts with
  | nil => rfl
  | cons t ts ih => simp [matchLit, ih]

theorem skipWs_headNotWs (cs : List Char) : headNotWs (skipWs cs) = true := by
  induction cs with
  | nil => rfl
  | cons c cs ih =>
      by_cases h : isPySpace c = true
      · simpa [skipWs, h] using ih
      · simp [skipWs, h, headNotWs]

theorem skipWs_decomp (cs : List Char) :
    ∃ w : List Char, allWs w = true ∧ cs = w ++ skipWs cs := by
  induction cs with
  | nil => exact ⟨[], rfl, rfl⟩
  | cons c cs ih =>
      by_cases h : isPySpace c = true
      · obtain ⟨w, hw, he⟩ := ih
        refine ⟨c :: w, ?_, ?_⟩
        · simp only [allWs, List.all_cons, h, Bool.true_and]
          simpa [allWs] using hw
        · simp only [skipWs, h, if_true, List.cons_append]
          exact congrArg (c :: ·) he
      · refine ⟨[], rfl, ?_⟩
        simp [skipWs, h]

theorem skipWs_of_headNotWs (cs : List Char) (h : headNotWs cs = true) :
    skipWs cs = cs := by
  cases cs with
  | nil => rfl
  | cons c cs =>
      simp only [headNotWs, Bool.not_eq_true'] at h
      simp [skipWs, h]

theorem skipWs_complete (w cs : List Char) (hw : allWs w = true)
    (hc : headNotWs cs = true) : skipWs (w ++ cs) = cs := by
  induction w with
  | nil => simpa using skipWs_of_headNotWs cs hc
  | cons c w ih =>
      simp only [allWs, List.all_cons, Bool.and_eq_true] at hw
      simp only [List.cons_append, skipWs, hw.1, if_true]
      exact ih (by simpa [allWs] using hw.2)

theorem matchWs1_sound (cs rest : List Char) (h : matchWs1 cs = some rest) :
    ∃ w : List Char, allWs w = true ∧ w ≠ [] ∧ cs = w ++ rest := by
  cases cs with
  | nil => simp [matchWs1] at h
  | cons c cs =>
      simp only [matchWs1] at h
      by_cases hc : isPySpace c = true
      · simp only [hc, if_true, Option.some.injEq] at h
        obtain ⟨w, hw, he⟩ := skipWs_decomp cs
        refine ⟨c :: w, ?_, by simp, ?_⟩
        · simp only [allWs, List.all_cons, hc, Bool.true_and]
          simpa [allWs] using hw
        · rw [h] at he
          simp only [List.cons_append]
          exact congrArg (c :: ·) he
      · simp [hc] at h

theorem matchWs1_complete (w cs : List Char) (hw : allWs w = true)
    (hn : w ≠ []) (hc : headNotWs cs = true) :
    matchWs1 (w ++ cs) = some cs := by
  cases w with
  | nil => exact absurd rfl hn
  | cons c w =>
      simp only [allWs, List.all_cons, Bool.and_eq_true] at hw
      simp only [List.cons_append, matchWs1, hw.1, if_true,
        Option.some.injEq]
      exact skipWs_complete w cs (by simpa [allWs] using hw.2) hc

theorem headNotWs_append (l r : List Char) (h : l ≠ []) :
    headNotWs (l ++ r) = headNotWs l := by
  cases l with
  | nil => exact absurd rfl h
  | cons c l => rfl

end BackendDeclineFix

namespace BackendDeclineFix

theorem matchPatternAt_sound (cs rest : List Char)
    (h : matchPatternAt cs = some rest) :
    ∃ w1 w2 w3 w4 : List Char,
      allWs w1 = true ∧ w1 ≠ [] ∧ allWs w2 = true ∧ allWs w3 = true ∧
      allWs w4 = true ∧
      cs = "if".data ++ w1 ++ "delivery.driver".data ++ w2 ++ "!=".data ++
           w3 ++ "request.user.driver".data ++ w4 ++ ":".data ++ rest := by
  unfold matchPatternAt at h
  cases h1 : matchLit "if".data cs with
  | none => rw [h1] at h; simp at h
  | some r1 =>
  rw [h1] at h
  simp only [Option.bind_eq_bind, Option.some_bind] at h
  cases h2 : matchWs1 r1 with
  | none => rw [h2] at h; simp at h
  | some r2 =>
  rw [h2] at h
  simp only [Option.some_bind] at h
  cases h3 : matchLit "delivery.driver".data r2 with
  | none => rw [h3] at h; simp at h
  | some r3 =>
  rw [h3] at h
  simp only [Option.some_bind] at h
  cases h4 : matchLit "!=".data (skipWs r3) with
  | none => rw [h4] at h; simp at h
  | some r5 =>
  rw [h4] at h
  simp only [Option.some_bind] at h
  cases h5 : matchLit "request.user.driver".data (skipWs r5) with
  | none => rw [h5] at h; simp at h
  | some r7 =>
  rw [h5] at h
  simp only [Option.some_bind] at h
  -- h : matchLit ":".data (skipWs r7) = some rest
  obtain ⟨w1, hw1, hn1, he1⟩ := matchWs1_sound r1 r2 h2
  obtain ⟨w2, hw2, he2⟩ := skipWs_decomp r3
  obtain ⟨w3, hw3, he3⟩ := skipWs_decomp r5
  obtain ⟨w4, hw4, he4⟩ := skipWs_decomp r7
  refine ⟨w1, w2, w3, w4, hw1, hn1, hw2, hw3, hw4, ?_⟩
  rw [matchLit_sound _ _ _ h1, he1, matchLit_sound _ _ _ h3, he2,
    matchLit_sound _ _ _ h4, he3, matchLit_sound _ _ _ h5, he4,
    matchLit_sound _ _ _ h]
  simp [List.append_assoc]

theorem matchPatternAt_complete (w1 w2 w3 w4 rest : List Char)
    (hw1 : allWs w1 = true) (hn : w1 ≠ []) (hw2 : allWs w2 = true)
    (hw3 : allWs w3 = true) (hw4 : allWs w4 = true) :
    matchPatternAt ("if".data ++ w1 ++ "delivery.driver".data ++ w2 ++
      "!=".data ++ w3 ++ "request.user.driver".data ++ w4 ++ ":".data ++
      rest) = some rest := by
  have hd1 : headNotWs ("delivery.driver".data ++ (w2 ++ ("!=".data ++
      (w3 ++ ("request.user.driver".data ++ (w4 ++ (":".data ++ rest))))))) =
      true := by
    rw [headNotWs_append _ _ (by decide)]; decide
  have hd2 : headNotWs ("!=".data ++
      (w3 ++ ("request.user.driver".data ++ (w4 ++ (":".data ++ rest))))) =
      true := by
    rw [headNotWs_append _ _ (by decide)]; decide
  have hd3 : headNotWs ("request.user.driver".data ++
      (w4 ++ (":".data ++ rest))) = true := by
    rw [headNotWs_append _ _ (by decide)]; decide
  have hd4 : headNotWs (":".data ++ rest) = true := by
    rw [headNotWs_append _ _ (by decide)]; decide
  unfold matchPatternAt
  simp only [List.append_assoc]
  rw [matchLit_complete]
  simp only [Option.bind_eq_bind, Option.some_bind]
  rw [matchWs1_complete _ _ hw1 hn hd1]
  simp only [Option.some_bind]
  rw [matchLit_complete]
  simp only [Option.some_bind]
  rw [skipWs_complete _ _ hw2 hd2]
  rw [matchLit_complete]
  simp only [Option.some_bind]
  rw [skipWs_complete _ _ hw3 hd3]
  rw [matchLit_complete]
  simp only [Option.some_bind]
  rw [skipWs_complete _ _ hw4 hd4]
  rw [matchLit_complete]

theorem matchPatternAt_nil : matchPatternAt [] = none := rfl

theorem searchPattern_of_matchAt (cs r : List Char)
    (h : matchPatternAt cs = some r) : searchPattern cs = true := by
  cases cs with
  | nil => rw [matchPatternAt_nil] at h; exact Option.noConfusion h
  | cons c cs => simp [searchPattern, h]

theorem searchPattern_append (pre cs : List Char)
    (h : searchPattern cs = true) : searchPattern (pre ++ cs) = true := by
  induction pre with
  | nil => simpa using h
  | cons c pre ih => simp [searchPattern, ih]

/-- Correctness of the embedded matcher for the regex of
src/backend_decline_fix.py line 40: `re.search` succeeds exactly on contents
containing the decline-permission check up to whitespace. -/
theorem searchPattern_iff (cs : List Char) :
    searchPattern cs = true ↔ ContainsDeclineCheck cs := by
  constructor
  · intro h
    induction cs with
    | nil => simp [searchPattern] at h
    | cons c cs ih =>
        simp only [searchPattern, Bool.or_eq_true] at h
        cases h with
        | inl h =>
            obtain ⟨r, hr⟩ := Option.isSome_iff_exists.mp h
            obtain ⟨w1, w2, w3, w4, hw1, hn, hw2, hw3, hw4, he⟩ :=
              matchPatternAt_sound _ _ hr
            exact ⟨[], w1, w2, w3, w4, r, hw1, hn, hw2, hw3, hw4,
              by simpa using he⟩
        | inr h =>
            obtain ⟨pre, w1, w2, w3, w4, rest, hw1, hn, hw2, hw3, hw4, he⟩ :=
              ih h
            exact ⟨c :: pre, w1, w2, w3, w4, rest, hw1, hn, hw2, hw3, hw4,
              by simp [he]⟩
  · rintro ⟨pre, w1, w2, w3, w4, rest, hw1, hn, hw2, hw3, hw4, he⟩
    subst he
    exact searchPattern_append _ _ (searchPattern_of_matchAt _ _
      (matchPatternAt_complete w1 w2 w3 w4 rest hw1 hn hw2 hw3 hw4))

end BackendDeclineFix

/-- The 400 response both decline actions return when the delivery belongs to
another driver. -/
def alreadyAssignedError : Response :=
  ⟨400, none, some "This delivery is already assigned to another driver.",
   none, none⟩

/-- C1: For every decline(order, agent) call, the decline is permitted exactly
when the Delivery's currently assigned driver is null or equals the requesting
driver; if assigned to a different driver the call fails with the
already-assigned error and changes no state; declining a delivery whose
assigned driver is null always succeeds, because the other-driver check runs
before any null-based branch.  Holds for both the quick_backend_fix.py and
URGENT_BACKEND_FIX.py decline actions. -/
theorem C1_decline_authorization (d : Delivery)
    (rows : UrgentBackendFix.DeclinedRows) (c : Nat) :
    ((QuickBackendFix.decline d c).1 = some alreadyAssignedError ↔
      d.driver ≠ none ∧ d.driver ≠ some c)
    ∧ ((UrgentBackendFix.decline d rows c).1 = some alreadyAssignedError ↔
      d.driver ≠ none ∧ d.driver ≠ some c)
    ∧ (d.driver ≠ none ∧ d.driver ≠ some c →
        (QuickBackendFix.decline d c).2 = d ∧
        (UrgentBackendFix.decline d rows c).2 = (d, rows))
    ∧ (d.driver = none →
        (QuickBackendFix.decline d c).1.map Response.httpStatus = some 200 ∧
        (UrgentBackendFix.decline d rows c).1.map Response.httpStatus
          = some 200) := by
  rcases hd : d.driver with _ | v
  · refine ⟨?_, ?_, ?_, ?_⟩ <;>
      simp [QuickBackendFix.decline, UrgentBackendFix.decline, hd,
        alreadyAssignedError]
  · by_cases hv : v = c
    · subst hv
      refine ⟨?_, ?_, ?_, ?_⟩ <;>
        simp [QuickBackendFix.decline, UrgentBackendFix.decline, hd,
          alreadyAssignedError]
    · refine ⟨?_, ?_, ?_, ?_⟩ <;>
        simp [QuickBackendFix.decline, UrgentBackendFix.decline, hd, hv,
          alreadyAssignedError]

/-- C1 witness: a delivery assigned to driver 5, declined by driver 7, is
rejected with no state change in both actions. -/
theorem C1_decline_authorization_witness :
    (QuickBackendFix.decline ⟨1, some 5, "assigned"⟩ 7).2
      = ⟨1, some 5, "assigned"⟩ ∧
    (UrgentBackendFix.decline ⟨1, some 5, "assigned"⟩ [] 7).2
      = (⟨1, some 5, "assigned"⟩, []) :=
  (C1_decline_authorization ⟨1, some 5, "assigned"⟩ [] 7).2.2.1
    ⟨by decide, by decide⟩

/-- How many of the collected results are claim conflicts. -/
def conflictCount (rs : List ClaimEngine.ClaimResult) : Nat :=
  (rs.filter (fun r => r == ClaimEngine.ClaimResult.claimConflictError)).length

theorem successCount_add_conflictCount (rs : List ClaimEngine.ClaimResult) :
    ClaimEngine.successCount rs + conflictCount rs = rs.length := by
  induction rs with
  | nil => rfl
  | cons r rs ih =>
      cases r <;>
      · simp only [ClaimEngine.successCount, conflictCount] at ih ⊢
        simp [List.filter_cons]
        omega

theorem runClaims_none_one_success (agents : List Nat) (h : agents ≠ []) :
    ClaimEngine.successCount (ClaimEngine.runClaims none agents).1 = 1 := by
  cases agents with
  | nil => exact absurd rfl h
  | cons a rest =>
      simp only [ClaimEngine.runClaims, ClaimEngine.claim,
        ClaimEngine.successCount, List.filter_cons]
      simp only [show (ClaimEngine.ClaimResult.success ==
        ClaimEngine.ClaimResult.success) = true from rfl, if_true,
        List.length_cons]
      have := ClaimEngine.runClaims_some_no_success a rest
      simp only [ClaimEngine.successCount] at this
      omega

/-- C2: among N ≥ 1 claim attempts on a broadcast order with no assigned
driver, executed as atomic compare-and-sets permitted only when the
assigned-driver field is null, exactly one succeeds and the other N−1 fail
with ClaimConflictError; from any starting state at most one
pending→assigned transition (successful claim) ever occurs. -/
theorem C2_claim_exclusivity (agents : List Nat) (h : agents ≠ []) :
    ClaimEngine.successCount (ClaimEngine.runClaims none agents).1 = 1
    ∧ conflictCount (ClaimEngine.runClaims none agents).1
        = agents.length - 1
    ∧ ∀ st : Option Nat,
        ClaimEngine.successCount (ClaimEngine.runClaims st agents).1 ≤ 1 := by
  have h1 := runClaims_none_one_success agents h
  have h2 := successCount_add_conflictCount (ClaimEngine.runClaims none agents).1
  have h3 := ClaimEngine.runClaims_length none agents
  refine ⟨h1, by omega, ?_⟩
  intro st
  cases st with
  | none => omega
  | some d => simp [ClaimEngine.runClaims_some_no_success]

/-- C2 witness: three concurrent claims on an unassigned broadcast order —
one success, two conflicts. -/
theorem C2_claim_exclusivity_witness :
    ClaimEngine.successCount (ClaimEngine.runClaims none [3, 5, 9]).1 = 1
    ∧ conflictCount (ClaimEngine.runClaims none [3, 5, 9]).1 = 2 :=
  ⟨(C2_claim_exclusivity [3, 5, 9] (by decide)).1,
   (C2_claim_exclusivity [3, 5, 9] (by decide)).2.1⟩

/-- C9: declining a delivery whose assigned driver is null writes nothing:
both decline actions return the Delivery (every field) and the
DeclinedDelivery table unchanged, and only produce the 200 success
response. -/
theorem C9_decline_unassigned_frame (d : Delivery)
    (rows : UrgentBackendFix.DeclinedRows) (c : Nat) (h : d.driver = none) :
    (QuickBackendFix.decline d c).2 = d
    ∧ (UrgentBackendFix.decline d rows c).2 = (d, rows)
    ∧ (QuickBackendFix.decline d c).1
        = some ⟨200, some "Delivery declined successfully.", none,
            some d.id, some "declined"⟩
    ∧ (UrgentBackendFix.decline d rows c).1
        = some ⟨200, some "Delivery declined successfully.", none,
            some d.id, some "declined"⟩ := by
  refine ⟨?_, ?_, ?_, ?_⟩ <;>
    simp [QuickBackendFix.decline, UrgentBackendFix.decline, h]

/-- C9 witness: declining the unassigned delivery 3 leaves it untouched. -/
theorem C9_decline_unassigned_frame_witness :
    (QuickBackendFix.decline ⟨3, none, "assigned"⟩ 7).2
      = ⟨3, none, "assigned"⟩
    ∧ (UrgentBackendFix.decline ⟨3, none, "assigned"⟩ [(9, 9)] 7).2
      = (⟨3, none, "assigned"⟩, [(9, 9)]) :=
  ⟨(C9_decline_unassigned_frame ⟨3, none, "assigned"⟩ [(9, 9)] 7 rfl).1,
   (C9_decline_unassigned_frame ⟨3, none, "assigned"⟩ [(9, 9)] 7 rfl).2.1⟩

/-- C3 counterexample: the URGENT_BACKEND_FIX.py decline of delivery 1,
assigned to the requesting driver 7, succeeds and nulls the driver but sets
status "assigned" (`DeliveryStatus.ASSIGNED.value`), not "pending" as the
claim states. -/
theorem C3_counterexample :
    (UrgentBackendFix.decline ⟨1, some 7, "accepted"⟩ [] 7).1.map
        Response.httpStatus = some 200
    ∧ (UrgentBackendFix.decline ⟨1, some 7, "accepted"⟩ [] 7).2.1.driver
        = none
    ∧ (UrgentBackendFix.decline ⟨1, some 7, "accepted"⟩ [] 7).2.1.status
        = "assigned"
    ∧ ¬ ((UrgentBackendFix.decline ⟨1, some 7, "accepted"⟩ [] 7).2.1.status
        = "pending") := by
  refine ⟨rfl, rfl, rfl, by decide⟩

/-- C3 (amended): a successful decline of a delivery assigned to the
requesting driver sets the assigned driver to null and returns the delivery
to the unassigned pool's status — "pending" in quick_backend_fix.py, but
"assigned" (the status available_orders uses for the unassigned pool) in
URGENT_BACKEND_FIX.py. -/
theorem C3_decline_releases_claim (d : Delivery)
    (rows : UrgentBackendFix.DeclinedRows) (c : Nat) (h : d.driver = some c) :
    (QuickBackendFix.decline d c).1.map Response.httpStatus = some 200
    ∧ (QuickBackendFix.decline d c).2.driver = none
    ∧ (QuickBackendFix.decline d c).2.status = "pending"
    ∧ (UrgentBackendFix.decline d rows c).1.map Response.httpStatus = some 200
    ∧ (UrgentBackendFix.decline d rows c).2.1.driver = none
    ∧ (UrgentBackendFix.decline d rows c).2.1.status = "assigned" := by
  refine ⟨?_, ?_, ?_, ?_, ?_, ?_⟩ <;>
    simp [QuickBackendFix.decline, UrgentBackendFix.decline, h]

/-- C3 witness: driver 7 declining its own delivery 1 releases the claim in
both actions. -/
theorem C3_decline_releases_claim_witness :
    (QuickBackendFix.decline ⟨1, some 7, "accepted"⟩ 7).2.status = "pending"
    ∧ (UrgentBackendFix.decline ⟨1, some 7, "accepted"⟩ [] 7).2.1.driver
        = none :=
  ⟨(C3_decline_releases_claim ⟨1, some 7, "accepted"⟩ [] 7 rfl).2.2.1,
   (C3_decline_releases_claim ⟨1, some 7, "accepted"⟩ [] 7 rfl).2.2.2.2.1⟩

/-- C4: contrary to the claim (and to the decline action's own docstring,
"Available orders (driver=None) - removes from their available list", and the
file's test expectation "Order should disappear from that driver's list"),
the URGENT_BACKEND_FIX.py decline never appends a DeclinedDelivery entry:
the table is unchanged by every call, and in particular after driver 7
successfully declines the unassigned delivery 1, has_declined(1, 7) is still
false. -/
theorem C4_decline_appends_nothing :
    (∀ (d : Delivery) (rows : UrgentBackendFix.DeclinedRows) (c : Nat),
      (UrgentBackendFix.decline d rows c).2.2 = rows)
    ∧ (UrgentBackendFix.decline ⟨1, none, "assigned"⟩ [] 7).1.map
        Response.httpStatus = some 200
    ∧ UrgentBackendFix.has_declined
        (UrgentBackendFix.decline ⟨1, none, "assigned"⟩ [] 7).2.2 1 7
        = false := by
  refine ⟨?_, rfl, rfl⟩
  intro d rows c
  unfold UrgentBackendFix.decline
  rcases hd : d.driver with _ | v
  · simp [hd]
  · by_cases hv : v = c <;> simp [hd, hv]

/-- C5 counterexample: driver 9 successfully declines the unassigned delivery
2, yet (because decline records nothing) the subsequent available_orders
listing for driver 9 still contains delivery 2 — "after A declines O, O never
appears in A's available-orders listing" fails on this code. -/
theorem C5_counterexample :
    (UrgentBackendFix.decline ⟨2, none, "assigned"⟩ [] 9).1.map
        Response.httpStatus = some 200
    ∧ UrgentBackendFix.available_orders [⟨2, none, "assigned"⟩]
        (UrgentBackendFix.decline ⟨2, none, "assigned"⟩ [] 9).2.2 9
        = [⟨2, none, "assigned"⟩] := by
  exact ⟨rfl, rfl⟩

/-- C5 (amended): whenever has_declined(O, A) actually holds — a
DeclinedDelivery row exists for the pair — O never appears in A's
available_orders listing, and assign never selects A for O; but decline
itself appends no DeclineRecord, so declining alone does not establish
has_declined and does not prevent re-listing or re-selection. -/
theorem C5_has_declined_never_selected (rows : UrgentBackendFix.DeclinedRows)
    (a : Nat) :
    (∀ (deliveries : List Delivery) (d : Delivery),
        UrgentBackendFix.has_declined rows d.id a = true →
        d ∉ UrgentBackendFix.available_orders deliveries rows a)
    ∧ (∀ (orderId : Nat) (candidates : List Nat) (ok : Nat → Bool),
        UrgentBackendFix.has_declined rows orderId a = true →
        AssignEngine.assign rows orderId candidates ok ≠ some a) := by
  constructor
  · intro deliveries d hdec hmem
    unfold UrgentBackendFix.available_orders at hmem
    have h2 := (List.mem_filter.mp hmem).2
    simp only [Bool.not_eq_true'] at h2
    have hm : (d.id, a) ∈ rows := by
      unfold UrgentBackendFix.has_declined at hdec
      simpa using hdec
    have hin : d.id ∈ (rows.filter (fun r => r.2 == a)).map (·.1) :=
      List.mem_map.mpr ⟨(d.id, a), List.mem_filter.mpr ⟨hm, by simp⟩, rfl⟩
    have : ((rows.filter (fun r => r.2 == a)).map (·.1)).contains d.id
        = true := by simpa using hin
    rw [this] at h2
    exact Bool.noConfusion h2
  · intro orderId candidates ok hdec hassign
    have := AssignEngine.assign_mem_filter rows orderId candidates ok a hassign
    rw [hdec] at this
    exact Bool.noConfusion this

/-- C5 witness: with a recorded decline of delivery 5 by driver 3, the
listing omits delivery 5 and assign never picks driver 3 for it. -/
theorem C5_has_declined_never_selected_witness :
    (⟨5, none, "assigned"⟩ : Delivery) ∉
      UrgentBackendFix.available_orders [⟨5, none, "assigned"⟩] [(5, 3)] 3
    ∧ AssignEngine.assign [(5, 3)] 5 [3] (fun _ => true) ≠ some 3 :=
  ⟨(C5_has_declined_never_selected [(5, 3)] 3).1 [⟨5, none, "assigned"⟩]
      ⟨5, none, "assigned"⟩ (by decide),
   (C5_has_declined_never_selected [(5, 3)] 3).2 5 [3] (fun _ => true)
      (by decide)⟩

namespace UrgentBackendFix

theorem decline_rows_eq (d : Delivery) (rows : DeclinedRows) (c : Nat) :
    (decline d rows c).2.2 = rows := by
  unfold decline
  rcases hd : d.driver with _ | v
  · simp [hd]
  · by_cases hv : v = c <;> simp [hd, hv]

end UrgentBackendFix

theorem count_le_one_of_nodup (l : List (Nat × Nat)) (h : l.Nodup)
    (p : Nat × Nat) : l.count p ≤ 1 := by
  induction l with
  | nil => simp
  | cons a l ih =>
      rw [List.count_cons]
      rcases List.nodup_cons.mp h with ⟨ha, hl⟩
      by_cases hpa : p = a
      · subst hpa
        have h0 : l.count p = 0 := List.count_eq_zero.mpr ha
        simp [h0]
      · have hap : a ≠ p := fun e => hpa e.symm
        simp [hpa, hap]
        exact ih hl

/-- C6 counterexample: driver 2 declines the unassigned delivery 4 twice
(identical calls); the DeclinedDelivery table holds zero entries for the pair
(4, 2) afterwards, not the one entry the claim states. -/
theorem C6_counterexample :
    (UrgentBackendFix.decline
        (UrgentBackendFix.decline ⟨4, none, "assigned"⟩ [] 2).2.1
        (UrgentBackendFix.decline ⟨4, none, "assigned"⟩ [] 2).2.2 2).2.2.count
      (4, 2) = 0
    ∧ ¬ ((UrgentBackendFix.decline
        (UrgentBackendFix.decline ⟨4, none, "assigned"⟩ [] 2).2.1
        (UrgentBackendFix.decline ⟨4, none, "assigned"⟩ [] 2).2.2 2).2.2.count
      (4, 2) = 1) := by
  exact ⟨rfl, by decide⟩

/-- C6 (amended): a repeated identical decline call never yields two ledger
entries — decline appends nothing, so the entry count for the pair is
whatever it was before (at most one under the DeclinedDelivery unique
constraint, i.e. for duplicate-free rows) — and the repeated call is
observably equivalent to the first: for an unassigned delivery it returns the
identical response and state (in both decline actions), and for a delivery
assigned to the caller it reaches the same final state with a 200 success. -/
theorem C6_decline_idempotent (d : Delivery)
    (rows : UrgentBackendFix.DeclinedRows) (c : Nat) :
    (UrgentBackendFix.decline d rows c).2.2 = rows
    ∧ (rows.Nodup →
        (UrgentBackendFix.decline
            (UrgentBackendFix.decline d rows c).2.1
            (UrgentBackendFix.decline d rows c).2.2 c).2.2.count (d.id, c)
          ≤ 1)
    ∧ (d.driver = none →
        UrgentBackendFix.decline (UrgentBackendFix.decline d rows c).2.1
            (UrgentBackendFix.decline d rows c).2.2 c
          = UrgentBackendFix.decline d rows c
        ∧ QuickBackendFix.decline (QuickBackendFix.decline d c).2 c
          = QuickBackendFix.decline d c)
    ∧ (d.driver = some c →
        (UrgentBackendFix.decline (UrgentBackendFix.decline d rows c).2.1
            (UrgentBackendFix.decline d rows c).2.2 c).2
          = (UrgentBackendFix.decline d rows c).2
        ∧ (UrgentBackendFix.decline (UrgentBackendFix.decline d rows c).2.1
            (UrgentBackendFix.decline d rows c).2.2 c).1.map
            Response.httpStatus = some 200) := by
  refine ⟨UrgentBackendFix.decline_rows_eq d rows c, ?_, ?_, ?_⟩
  · intro hnd
    rw [UrgentBackendFix.decline_rows_eq, UrgentBackendFix.decline_rows_eq]
    exact count_le_one_of_nodup rows hnd (d.id, c)
  · intro h
    have e1 : (UrgentBackendFix.decline d rows c).2.1 = d := by
      simp [UrgentBackendFix.decline, h]
    have e2 : (UrgentBackendFix.decline d rows c).2.2 = rows :=
      UrgentBackendFix.decline_rows_eq d rows c
    have e3 : (QuickBackendFix.decline d c).2 = d := by
      simp [QuickBackendFix.decline, h]
    rw [e1, e2, e3]
    exact ⟨rfl, rfl⟩
  · intro h
    have e1 : (UrgentBackendFix.decline d rows c).2.1
        = { d with driver := none, status := "assigned" } := by
      simp [UrgentBackendFix.decline, h]
    have e2 : (UrgentBackendFix.decline d rows c).2.2 = rows :=
      UrgentBackendFix.decline_rows_eq d rows c
    rw [e1, e2]
    constructor
    · simp [UrgentBackendFix.decline, h]
    · simp [UrgentBackendFix.decline]

/-- C6 witness: with one pre-existing ledger row for (6, 2), two identical
declines by driver 2 leave the count at one — never two — and the repeated
call equals the first. -/
theorem C6_decline_idempotent_witness :
    (UrgentBackendFix.decline
        (UrgentBackendFix.decline ⟨6, none, "assigned"⟩ [(6, 2)] 2).2.1
        (UrgentBackendFix.decline ⟨6, none, "assigned"⟩ [(6, 2)] 2).2.2
        2).2.2.count (6, 2) ≤ 1
    ∧ UrgentBackendFix.decline
        (UrgentBackendFix.decline ⟨6, none, "assigned"⟩ [(6, 2)] 2).2.1
        (UrgentBackendFix.decline ⟨6, none, "assigned"⟩ [(6, 2)] 2).2.2 2
      = UrgentBackendFix.decline ⟨6, none, "assigned"⟩ [(6, 2)] 2 :=
  ⟨(C6_decline_idempotent ⟨6, none, "assigned"⟩ [(6, 2)] 2).2.1 (by decide),
   ((C6_decline_idempotent ⟨6, none, "assigned"⟩ [(6, 2)] 2).2.2.1 rfl).1⟩

/-- C7: whenever an agent's active-assignment set only ever grew through
accepts permitted by can_accept_new_delivery (every reachable state), the
number of restricted-type (food/fast) orders it holds is at most K; and an
agent already holding K restricted orders is rejected for another restricted
order with reason "restricted-type capacity" even when adding it would stay
within the weight capacity.  (K = 2 by default per the spec.) -/
theorem C7_restricted_type_capacity (k capacity : Nat)
    (active : List SmartAssignment.Ord)
    (h : SmartAssignment.Reachable k capacity active) :
    SmartAssignment.restrictedCount active ≤ k
    ∧ (∀ o : SmartAssignment.Ord, SmartAssignment.isRestricted o = true →
        k ≤ SmartAssignment.restrictedCount active →
        SmartAssignment.totalWeight active + o.weight ≤ capacity →
        SmartAssignment.can_accept_new_delivery k active capacity o
          = (false, "restricted-type capacity")) := by
  refine ⟨SmartAssignment.reachable_restricted_le k capacity active h, ?_⟩
  intro o hr hk _
  simp [SmartAssignment.can_accept_new_delivery, hr, hk]

/-- C7 witness: an agent that accepted two "fast" orders (a reachable state
under K = 2, capacity 100) holds ≤ 2 restricted orders and is rejected for a
third light "fast" order with reason "restricted-type capacity" despite
ample spare weight capacity. -/
theorem C7_restricted_type_capacity_witness :
    SmartAssignment.restrictedCount
        [⟨"fast", 1⟩, ⟨"fast", 1⟩] ≤ 2
    ∧ SmartAssignment.can_accept_new_delivery 2
        [⟨"fast", 1⟩, ⟨"fast", 1⟩] 100 ⟨"fast", 1⟩
      = (false, "restricted-type capacity") := by
  have hreach : SmartAssignment.Reachable 2 100
      [⟨"fast", 1⟩, ⟨"fast", 1⟩] :=
    SmartAssignment.Reachable.accept _ _
      (SmartAssignment.Reachable.accept _ _ SmartAssignment.Reachable.start
        (by decide)) (by decide)
  exact ⟨(C7_restricted_type_capacity 2 100 _ hreach).1,
    (C7_restricted_type_capacity 2 100 _ hreach).2 ⟨"fast", 1⟩ (by decide)
      (by decide) (by decide)⟩

/-- C8: get_candidates yields exactly the agents that are available AND
on-duty AND whose location timestamp exists and lies within the freshness
window; an agent with a missing location timestamp is excluded from the
candidate set entirely (and a stale one fails the characterization's
freshness conjunct). -/
theorem C8_get_candidates_exact (agents : List AgentRegistry.Agent)
    (now window : Nat) (a : AgentRegistry.Agent) :
    (a ∈ AgentRegistry.get_candidates agents now window ↔
      a ∈ agents ∧ a.is_available = true ∧ a.is_on_duty = true ∧
        ∃ t, a.last_location_update = some t ∧ now ≤ t + window)
    ∧ (a.last_location_update = none →
        a ∉ AgentRegistry.get_candidates agents now window) := by
  have hiff : a ∈ AgentRegistry.get_candidates agents now window ↔
      a ∈ agents ∧ a.is_available = true ∧ a.is_on_duty = true ∧
        ∃ t, a.last_location_update = some t ∧ now ≤ t + window := by
    unfold AgentRegistry.get_candidates
    rw [List.mem_filter]
    constructor
    · rintro ⟨hmem, hp⟩
      simp only [Bool.and_eq_true] at hp
      obtain ⟨⟨hav, hod⟩, hfresh⟩ := hp
      refine ⟨hmem, hav, hod, ?_⟩
      unfold AgentRegistry.locationFresh at hfresh
      cases ht : a.last_location_update with
      | none => rw [ht] at hfresh; exact Bool.noConfusion hfresh
      | some t =>
          rw [ht] at hfresh
          exact ⟨t, rfl, by simpa using hfresh⟩
    · rintro ⟨hmem, hav, hod, t, ht, hle⟩
      refine ⟨hmem, ?_⟩
      simp [hav, hod, AgentRegistry.locationFresh, ht, hle]
  refine ⟨hiff, ?_⟩
  intro hnone hmem
  obtain ⟨_, _, _, t, ht, _⟩ := hiff.mp hmem
  rw [hnone] at ht
  exact Option.noConfusion ht

/-- C8 witness: at time 20 with a 15-minute window, an available on-duty
agent last seen at minute 10 is a candidate; one with no timestamp is not. -/
theorem C8_get_candidates_exact_witness :
    (⟨1, true, true, some 10⟩ : AgentRegistry.Agent) ∈
      AgentRegistry.get_candidates
        [⟨1, true, true, some 10⟩, ⟨2, true, true, none⟩] 20 15
    ∧ (⟨2, true, true, none⟩ : AgentRegistry.Agent) ∉
      AgentRegistry.get_candidates
        [⟨1, true, true, some 10⟩, ⟨2, true, true, none⟩] 20 15 :=
  ⟨(C8_get_candidates_exact _ 20 15 _).1.mpr
      ⟨by decide, rfl, rfl, 10, rfl, by decide⟩,
   (C8_get_candidates_exact _ 20 15 _).2 rfl⟩

/-- C10: fix_decline_permission returns True exactly when the content
contains the pattern `if delivery.driver != request.user.driver:` up to
whitespace; on True its writes are, in order, first a backup at
path + ".backup" carrying the original content byte for byte and then the
rewritten file at path; on False it performs no write at all (file unchanged,
no backup created). -/
theorem C10_fix_decline_permission (path : String) (content : List Char) :
    ((BackendDeclineFix.fix_decline_permission path content).1 = true ↔
      BackendDeclineFix.ContainsDeclineCheck content)
    ∧ ((BackendDeclineFix.fix_decline_permission path content).1 = true →
        (BackendDeclineFix.fix_decline_permission path content).2 =
          [⟨path ++ ".backup", content⟩,
           ⟨path, BackendDeclineFix.fixedContent content⟩])
    ∧ ((BackendDeclineFix.fix_decline_permission path content).1 = false →
        (BackendDeclineFix.fix_decline_permission path content).2 = []) := by
  unfold BackendDeclineFix.fix_decline_permission
  by_cases h : BackendDeclineFix.searchPattern content = true
  · rw [if_pos h]
    refine ⟨⟨fun _ => (BackendDeclineFix.searchPattern_iff content).mp h,
      fun _ => rfl⟩, fun _ => rfl, ?_⟩
    intro hf
    simp at hf
  · rw [if_neg h]
    refine ⟨⟨?_, ?_⟩, ?_, fun _ => rfl⟩
    · intro hft
      simp at hft
    · intro hc
      exact absurd ((BackendDeclineFix.searchPattern_iff content).mpr hc) h
    · intro hft
      simp at hft

/-- C10 witness: on a file whose content is exactly the broken permission
check, the script reports success and writes the backup (original content)
before the rewritten file. -/
theorem C10_fix_decline_permission_witness :
    (BackendDeclineFix.fix_decline_permission "views.py"
        "if delivery.driver != request.user.driver:".data).2 =
      [⟨"views.py" ++ ".backup",
        "if delivery.driver != request.user.driver:".data⟩,
       ⟨"views.py", BackendDeclineFix.fixedContent
          "if delivery.driver != request.user.driver:".data⟩] :=
  (C10_fix_decline_permission "views.py"
    "if delivery.driver != request.user.driver:".data).2.1 (by decide)
